import Mathlib

/-!
Verification of the Fog ByteSIMD arithmetic core
(`Fog/Graphics/Raster_SSE2_p.h`, namespace `Fog::ByteSIMD`).

The C++ functions operate on `uint32_t` / `uint64_t` values.  They are
embedded here as functions on `ℕ`, with an explicit `% 2^32` (`M32`)
wherever a C++ `uint32_t` operation can overflow.  Functions that return
results through reference parameters (`b32_1x2& dst0`, ...) are modelled
as functions returning those outputs; a reference parameter that the
function body never assigns (a source bug, see `b32_2x2AddSubB32_2x2`
and `b32_2x2MulDiv256U`) is modelled as an extra input that is passed
through unchanged, mirroring the unmodified caller variable.
-/

/-- Modulus of 32-bit unsigned arithmetic. -/
def M32 : ℕ := 4294967296

/-- C `uint32_t` addition (wraps mod 2^32). -/
def add32 (x y : ℕ) : ℕ := (x + y) % M32

/-- C `uint32_t` subtraction (wraps mod 2^32). -/
def sub32 (x y : ℕ) : ℕ := (x + (M32 - y % M32)) % M32

/-- C `uint32_t` multiplication (wraps mod 2^32). -/
def mul32 (x y : ℕ) : ℕ := (x * y) % M32

/-- C `uint32_t` left shift (wraps mod 2^32). -/
def shl32 (x n : ℕ) : ℕ := (x <<< n) % M32

/-- Constant `BYTE1x1HALF` from the source. -/
def BYTE1x1HALF : ℕ := 0x00000080

/-- Constant `BYTE1x2HALF` from the source. -/
def BYTE1x2HALF : ℕ := 0x00800080

/-- Constant `BYTE1x2MASK` from the source. -/
def BYTE1x2MASK : ℕ := 0x00FF00FF

/-- Constant `BYTE1x2MASK_PLUS_ONE` from the source (note the value
`0x10000100`, exactly as in the header). -/
def BYTE1x2MASK_PLUS_ONE : ℕ := 0x10000100

/-- Constant `BYTE_1x4MASK` from the source. -/
def BYTE_1x4MASK : ℕ := 0x00FF00FF00FF00FF

/-! ### Scalar (u32) primitives -/

/-- Embeds `u32Addus`: `x += y; x |= 0x0100 - ((x >> 8) & 0x00FF); x &= 0x00FF`.
The branch-free path is modelled (`FOG_BYTESIMD_USE_CONDITIONAL_INSTRUCTIONS`
is not defined in the source). -/
def u32Addus (x y : ℕ) : ℕ :=
  let x := add32 x y
  let x := x ||| (0x0100 - ((x >>> 8) &&& 0x00FF))
  x &&& 0x00FF

/-- Embeds `u32Subus`: `x -= y; x &= (x >> 24) ^ 0xFF`. -/
def u32Subus (x y : ℕ) : ℕ :=
  let x := sub32 x y
  x &&& ((x >>> 24) ^^^ 0xFF)

/-- Embeds `u32Div255`: `((i << 8) + (i + 256)) >> 16`. -/
def u32Div255 (i : ℕ) : ℕ :=
  (add32 (shl32 i 8) (add32 i 256)) >>> 16

/-- Embeds `u32MulDiv255`: `x *= a; x = ((x + (x >> 8) + 0x80) >> 8)`. -/
def u32MulDiv255 (x a : ℕ) : ℕ :=
  let x := mul32 x a
  (add32 (add32 x (x >>> 8)) 0x80) >>> 8

/-! ### Packing layer -/

/-- Embeds `b32_2x2Pack0213`: `dst0 = a0 | (a1 << 8)`. -/
def b32_2x2Pack0213 (a0 a1 : ℕ) : ℕ := a0 ||| shl32 a1 8

/-- Embeds `b32_2x2Unpack0213`: `dst0 = a0; dst1 = a0 >> 8; dst0 &= MASK; dst1 &= MASK`.
Returns `(dst0, dst1)`. -/
def b32_2x2Unpack0213 (a0 : ℕ) : ℕ × ℕ :=
  (a0 &&& BYTE1x2MASK, (a0 >>> 8) &&& BYTE1x2MASK)

/-- Embeds `b64_1x4Pack0213`: `dst0 = (uint32_t)(x0 | (x0 >> 24))`; the cast to
`uint32_t` is the `% M32`. -/
def b64_1x4Pack0213 (x0 : ℕ) : ℕ := (x0 ||| (x0 >>> 24)) % M32

/-- Embeds `b64_1x4Unpack0213`: `dst0 = ((b64_1x4)a0 | ((b64_1x4)a0 << 24)) & BYTE_1x4MASK`
(64-bit arithmetic; a 32-bit `a0` shifted by 24 cannot overflow 64 bits). -/
def b64_1x4Unpack0213 (a0 : ℕ) : ℕ := (a0 ||| (a0 <<< 24)) &&& BYTE_1x4MASK

/-- Embeds `b32_1x2GetB1`: `a0 >> 16`. -/
def b32_1x2GetB1 (a0 : ℕ) : ℕ := a0 >>> 16

/-! ### Packed (b32_1x2) arithmetic -/

/-- Embeds `b32_1x2Saturate`:
`dst0 |= BYTE1x2MASK_PLUS_ONE - ((dst0 >> 8) & BYTE1x2MASK); dst0 &= 0x00FF00FF`.
The subtraction cannot underflow (the masked value is at most `0x00FF00FF`). -/
def b32_1x2Saturate (dst0 : ℕ) : ℕ :=
  let dst0 := dst0 ||| (BYTE1x2MASK_PLUS_ONE - ((dst0 >>> 8) &&& BYTE1x2MASK))
  dst0 &&& 0x00FF00FF

/-- Embeds `b32_2x2Saturate`: the same formula applied to `dst0` and `dst1`. -/
def b32_2x2Saturate (dst0 dst1 : ℕ) : ℕ × ℕ :=
  (b32_1x2Saturate dst0, b32_1x2Saturate dst1)

/-- Embeds `b32_1x2AddB32_1x2`: `dst0 = a0 + b0` (raw, not saturated). -/
def b32_1x2AddB32_1x2 (a0 b0 : ℕ) : ℕ := add32 a0 b0

/-- Embeds `b32_1x2AddusB32_1x2`: `dst0 = a0 + b0;` then `b32_1x2Saturate(dst0)`. -/
def b32_1x2AddusB32_1x2 (a0 b0 : ℕ) : ℕ :=
  b32_1x2Saturate (add32 a0 b0)

/-- Embeds `b32_2x2AddusB32_2x2`: `dst0 = a0 + b0; dst1 = a1 + b1;` then
`b32_2x2Saturate(dst0, dst1)`.  Returns `(dst0, dst1)`. -/
def b32_2x2AddusB32_2x2 (a0 b0 a1 b1 : ℕ) : ℕ × ℕ :=
  b32_2x2Saturate (add32 a0 b0) (add32 a1 b1)

/-- Embeds `b32_1x2SubusB32_1x2`:
`dst0 = (a0 ^ MASK) + b0; Saturate(dst0); dst0 ^= MASK`. -/
def b32_1x2SubusB32_1x2 (a0 b0 : ℕ) : ℕ :=
  let dst0 := add32 (a0 ^^^ BYTE1x2MASK) b0
  let dst0 := b32_1x2Saturate dst0
  dst0 ^^^ BYTE1x2MASK

/-- Embeds `b32_1x2MulDiv255U`:
`dst0 = a0 * u; dst0 = ((dst0 + ((dst0 >> 8) & MASK) + HALF) >> 8) & MASK`. -/
def b32_1x2MulDiv255U (a0 u : ℕ) : ℕ :=
  let dst0 := mul32 a0 u
  ((add32 (add32 dst0 ((dst0 >>> 8) &&& BYTE1x2MASK)) BYTE1x2HALF) >>> 8) &&& BYTE1x2MASK

/-- Embeds `b32_2x2MulDiv255U` (scalar-weight overload): the `b32_1x2MulDiv255U`
formula applied to `a0` and to `a1`.  Returns `(dst0, dst1)`. -/
def b32_2x2MulDiv255U (a0 a1 u : ℕ) : ℕ × ℕ :=
  (b32_1x2MulDiv255U a0 u, b32_1x2MulDiv255U a1 u)

/-- Embeds `b32_1x2MulDiv256U`: `dst0 = ((a0 * u) >> 8) & BYTE1x2MASK`. -/
def b32_1x2MulDiv256U (a0 u : ℕ) : ℕ :=
  ((mul32 a0 u) >>> 8) &&& BYTE1x2MASK

/-- Embeds `b32_2x2MulDiv256U`, exactly as written in the source: both statements
assign `dst0` (`dst0 = ((a0*u) >> 8) & MASK; dst0 = ((a1*u) >> 8) & MASK`)
and `dst1` is never assigned, so the caller's value `dst1` passes through.
Returns `(dst0, dst1)`. -/
def b32_2x2MulDiv256U (a0 dst1 a1 u : ℕ) : ℕ × ℕ :=
  let dst0 := ((mul32 a0 u) >>> 8) &&& BYTE1x2MASK
  let dst0 := ((mul32 a1 u) >>> 8) &&& BYTE1x2MASK
  (dst0, dst1)

/-- Embeds `b32_2x2AddSubB32_2x2`, exactly as written in the source: both statements
assign `dst0` (`dst0 = a0 + b0 - c0; dst0 = a1 + b1 - c1`) and `dst1` is
never assigned, so the caller's value `dst1` passes through.
Returns `(dst0, dst1)`. -/
def b32_2x2AddSubB32_2x2 (a0 b0 c0 dst1 a1 b1 c1 : ℕ) : ℕ × ℕ :=
  let dst0 := sub32 (add32 a0 b0) c0
  let dst0 := sub32 (add32 a1 b1) c1
  (dst0, dst1)

/-- Embeds `b32_1x2MinB32_1x2`: per-lane minimum via masked comparisons. -/
def b32_1x2MinB32_1x2 (a0 b0 : ℕ) : ℕ :=
  let a0lo := a0 &&& 0x000000FF
  let b0lo := b0 &&& 0x000000FF
  let a0hi := a0 &&& 0x00FF0000
  let b0hi := b0 &&& 0x00FF0000
  let a0lo := if a0lo > b0lo then b0lo else a0lo
  let a0hi := if a0hi > b0hi then b0hi else a0hi
  a0lo ||| a0hi

/-- Embeds `b32_1x2MaxB32_1x2`: per-lane maximum via masked comparisons. -/
def b32_1x2MaxB32_1x2 (a0 b0 : ℕ) : ℕ :=
  let a0lo := a0 &&& 0x000000FF
  let a0hi := a0 &&& 0x00FF0000
  let b0lo := b0 &&& 0x000000FF
  let b0hi := b0 &&& 0x00FF0000
  let a0lo := if a0lo < b0lo then b0lo else a0lo
  let a0hi := if a0hi < b0hi then b0hi else a0hi
  a0lo ||| a0hi

/-- Embeds `b32_1x2Negate`: `dst0 = a0 ^ 0x00FF00FF`. -/
def b32_1x2Negate (a0 : ℕ) : ℕ := a0 ^^^ 0x00FF00FF

/-- Embeds `b32_2x2InterpolateU255`: `dst_i = a_i*b_i + c_i*d_i;
dst_i = dst_i + ((dst_i >> 8) & 0x00FF00FF) + 0x00800080; dst_i &= MASK`
(exactly as in the source, which does not shift right by 8 before the
final mask).  Returns `(dst0, dst1)`. -/
def b32_2x2InterpolateU255 (a0 b0 c0 d0 a1 b1 c1 d1 : ℕ) : ℕ × ℕ :=
  let dst0 := add32 (mul32 a0 b0) (mul32 c0 d0)
  let dst1 := add32 (mul32 a1 b1) (mul32 c1 d1)
  let dst0 := add32 (add32 dst0 ((dst0 >>> 8) &&& 0x00FF00FF)) 0x00800080
  let dst1 := add32 (add32 dst1 ((dst1 >>> 8) &&& 0x00FF00FF)) 0x00800080
  (dst0 &&& BYTE1x2MASK, dst1 &&& BYTE1x2MASK)

/-- Embeds `b32_2x2PremultiplyU`:
`dst0 = a0 * u; dst1 = (a1 & 0xFF) * u; u <<= 16;`
`dst0 = ((dst0 + ((dst0 >> 8) & MASK) + BYTE1x2HALF) >> 8) & MASK;`
`dst1 = ((dst1 + (dst1 >> 8) + BYTE1x1HALF) >> 8); dst1 |= u`.
Returns `(dst0, dst1)`. -/
def b32_2x2PremultiplyU (a0 a1 u : ℕ) : ℕ × ℕ :=
  let dst0 := mul32 a0 u
  let dst1 := mul32 (a1 &&& 0xFF) u
  let u := shl32 u 16
  let dst0 := ((add32 (add32 dst0 ((dst0 >>> 8) &&& BYTE1x2MASK)) BYTE1x2HALF) >>> 8) &&& BYTE1x2MASK
  let dst1 := (add32 (add32 dst1 (dst1 >>> 8)) BYTE1x1HALF) >>> 8
  let dst1 := dst1 ||| u
  (dst0, dst1)

/-- Embeds `b32_2x2PremultiplyA`: premultiply by the pixel's own alpha, which is
taken from lane B1 of `a1`. -/
def b32_2x2PremultiplyA (a0 a1 : ℕ) : ℕ × ℕ :=
  b32_2x2PremultiplyU a0 a1 (b32_1x2GetB1 a1)

/-! ### Tight-pixel (p32) operators (32-bit `#else` paths of the source) -/

/-- Embeds `p32AddusP32` (`FOG_ARCH_BITS != 64` path). -/
def p32AddusP32 (x y : ℕ) : ℕ :=
  let t0 := x &&& 0x00FF00FF
  let t1 := (x &&& 0xFF00FF00) >>> 8
  let t0 := add32 t0 (y &&& 0x00FF00FF)
  let t1 := add32 t1 ((y &&& 0xFF00FF00) >>> 8)
  let t0 := t0 ||| (0x01000100 - ((t0 >>> 8) &&& 0x00FF00FF))
  let t1 := t1 ||| (0x01000100 - ((t1 >>> 8) &&& 0x00FF00FF))
  let t0 := t0 &&& 0x00FF00FF
  let t1 := t1 &&& 0x00FF00FF
  t0 ||| shl32 t1 8

/-- Embeds `p32MulDiv255U` (`FOG_ARCH_BITS != 64` path). -/
def p32MulDiv255U (x a : ℕ) : ℕ :=
  let t0 := mul32 (x &&& 0x00FF00FF) a
  let t1 := mul32 ((x &&& 0xFF00FF00) >>> 8) a
  let x := ((add32 (add32 t0 ((t0 >>> 8) &&& 0x00FF00FF)) 0x00800080) >>> 8) &&& 0x00FF00FF
  let x := x ||| ((add32 (add32 t1 ((t1 >>> 8) &&& 0x00FF00FF)) 0x00800080) &&& 0xFF00FF00)
  x

/-! ### Spec-side definitions -/

/-- Nearest-integer division by 255 with ties resolved upward, following the
spec's words `round(v/255.0)`: `⌊(2*v + 255) / 510⌋ = ⌊v/255 + 1/2⌋`. -/
def roundNearestDiv255 (v : ℕ) : ℕ := (2 * v + 255) / 510

/-- The headroom invariant of a widened `b32_1x2` word: the upper 8 bits of
each 16-bit lane are zero (each lane value is in `[0, 255]`, and there are
no bits above bit 23). -/
def lanesClean (w : ℕ) : Prop := w % 65536 < 256 ∧ w / 65536 < 256

instance (w : ℕ) : Decidable (lanesClean w) := by
  unfold lanesClean; infer_instance

/-! ### Bit-manipulation toolkit -/

theorem or_split (i hi hi' lo lo' : ℕ) (h : lo < 2^i) (h' : lo' < 2^i) :
    (2^i*hi + lo) ||| (2^i*hi' + lo') = 2^i*(hi ||| hi') + (lo ||| lo') := by
  rw [Nat.mul_add_lt_is_or h, Nat.mul_add_lt_is_or h',
      Nat.mul_add_lt_is_or (Nat.or_lt_two_pow h h')]
  apply Nat.eq_of_testBit_eq
  intro j
  simp only [Nat.testBit_or, Nat.testBit_mul_pow_two]
  rcases Nat.lt_or_ge j i with hj | hj
  · have hj' : ¬ (j ≥ i) := by omega
    simp [hj']
  · have hlo : Nat.testBit lo j = false :=
      Nat.testBit_lt_two_pow (lt_of_lt_of_le h (Nat.pow_le_pow_right (by norm_num) hj))
    have hlo' : Nat.testBit lo' j = false :=
      Nat.testBit_lt_two_pow (lt_of_lt_of_le h' (Nat.pow_le_pow_right (by norm_num) hj))
    simp [hj, hlo, hlo']

theorem and_split (i hi hi' lo lo' : ℕ) (h : lo < 2^i) (h' : lo' < 2^i) :
    (2^i*hi + lo) &&& (2^i*hi' + lo') = 2^i*(hi &&& hi') + (lo &&& lo') := by
  rw [Nat.mul_add_lt_is_or h, Nat.mul_add_lt_is_or h',
      Nat.mul_add_lt_is_or (Nat.and_lt_two_pow lo h')]
  apply Nat.eq_of_testBit_eq
  intro j
  simp only [Nat.testBit_or, Nat.testBit_and, Nat.testBit_mul_pow_two]
  rcases Nat.lt_or_ge j i with hj | hj
  · have hj' : ¬ (j ≥ i) := by omega
    simp [hj']
  · have hlo : Nat.testBit lo j = false :=
      Nat.testBit_lt_two_pow (lt_of_lt_of_le h (Nat.pow_le_pow_right (by norm_num) hj))
    have hlo' : Nat.testBit lo' j = false :=
      Nat.testBit_lt_two_pow (lt_of_lt_of_le h' (Nat.pow_le_pow_right (by norm_num) hj))
    simp [hj, hlo, hlo']

theorem xor_split (i hi hi' lo lo' : ℕ) (h : lo < 2^i) (h' : lo' < 2^i) :
    (2^i*hi + lo) ^^^ (2^i*hi' + lo') = 2^i*(hi ^^^ hi') + (lo ^^^ lo') := by
  rw [Nat.mul_add_lt_is_or h, Nat.mul_add_lt_is_or h',
      Nat.mul_add_lt_is_or (Nat.xor_lt_two_pow h h')]
  apply Nat.eq_of_testBit_eq
  intro j
  simp only [Nat.testBit_or, Nat.testBit_xor, Nat.testBit_mul_pow_two]
  rcases Nat.lt_or_ge j i with hj | hj
  · have hj' : ¬ (j ≥ i) := by omega
    simp [hj']
  · have hlo : Nat.testBit lo j = false :=
      Nat.testBit_lt_two_pow (lt_of_lt_of_le h (Nat.pow_le_pow_right (by norm_num) hj))
    have hlo' : Nat.testBit lo' j = false :=
      Nat.testBit_lt_two_pow (lt_of_lt_of_le h' (Nat.pow_le_pow_right (by norm_num) hj))
    simp [hj, hlo, hlo']

theorem pow16 : (2:ℕ)^16 = 65536 := by norm_num

theorem pow32 : (2:ℕ)^32 = 4294967296 := by norm_num

theorem or_split16 (hi hi' lo lo' : ℕ) (h : lo < 65536) (h' : lo' < 65536) :
    (65536*hi + lo) ||| (65536*hi' + lo') = 65536*(hi ||| hi') + (lo ||| lo') := by
  have g := or_split 16 hi hi' lo lo' (by rw [pow16]; exact h) (by rw [pow16]; exact h')
  rwa [pow16] at g

theorem and_split16 (hi hi' lo lo' : ℕ) (h : lo < 65536) (h' : lo' < 65536) :
    (65536*hi + lo) &&& (65536*hi' + lo') = 65536*(hi &&& hi') + (lo &&& lo') := by
  have g := and_split 16 hi hi' lo lo' (by rw [pow16]; exact h) (by rw [pow16]; exact h')
  rwa [pow16] at g

theorem xor_split16 (hi hi' lo lo' : ℕ) (h : lo < 65536) (h' : lo' < 65536) :
    (65536*hi + lo) ^^^ (65536*hi' + lo') = 65536*(hi ^^^ hi') + (lo ^^^ lo') := by
  have g := xor_split 16 hi hi' lo lo' (by rw [pow16]; exact h) (by rw [pow16]; exact h')
  rwa [pow16] at g

theorem or_split32 (hi hi' lo lo' : ℕ) (h : lo < 4294967296) (h' : lo' < 4294967296) :
    (4294967296*hi + lo) ||| (4294967296*hi' + lo') = 4294967296*(hi ||| hi') + (lo ||| lo') := by
  have g := or_split 32 hi hi' lo lo' (by rw [pow32]; exact h) (by rw [pow32]; exact h')
  rwa [pow32] at g

theorem and_split32 (hi hi' lo lo' : ℕ) (h : lo < 4294967296) (h' : lo' < 4294967296) :
    (4294967296*hi + lo) &&& (4294967296*hi' + lo') = 4294967296*(hi &&& hi') + (lo &&& lo') := by
  have g := and_split 32 hi hi' lo lo' (by rw [pow32]; exact h) (by rw [pow32]; exact h')
  rwa [pow32] at g

theorem or_add16 (a b : ℕ) (h : b < 65536) : 65536*a ||| b = 65536*a + b := by
  have g := Nat.mul_add_lt_is_or (show b < 2^16 by rw [pow16]; exact h) a
  rw [pow16] at g
  exact g.symm

theorem or_add8 (a b : ℕ) (h : b < 256) : 256*a ||| b = 256*a + b := by
  have g := Nat.mul_add_lt_is_or (show b < 2^8 by norm_num; exact h) a
  norm_num at g
  exact g.symm

theorem or_add32 (a b : ℕ) (h : b < 4294967296) : 4294967296*a ||| b = 4294967296*a + b := by
  have g := Nat.mul_add_lt_is_or (show b < 2^32 by rw [pow32]; exact h) a
  rw [pow32] at g
  exact g.symm

theorem and_255 (z : ℕ) : z &&& 255 = z % 256 := by
  have h : (255:ℕ) = 2^8 - 1 := by norm_num
  rw [h, Nat.and_pow_two_sub_one_eq_mod]

theorem and_65535 (z : ℕ) : z &&& 65535 = z % 65536 := by
  have h : (65535:ℕ) = 2^16 - 1 := by norm_num
  rw [h, Nat.and_pow_two_sub_one_eq_mod]

/-- Characterization of `&&& 0x00FF00FF` by div/mod arithmetic. -/
theorem and_mask16 (z : ℕ) : z &&& 0x00FF00FF = 65536*(z/65536 % 256) + z % 256 := by
  have h2 : (0x00FF00FF : ℕ) = 65536*255 + 255 := by norm_num
  have h1 : z = 65536*(z/65536) + z % 65536 := by omega
  rw [h2]
  conv_lhs => rw [h1]
  rw [and_split16 _ _ _ _ (by omega) (by norm_num), and_255, and_255]
  omega

/-- Characterization of `&&& 0xFF00FF00` by div/mod arithmetic. -/
theorem and_maskhi (z : ℕ) :
    z &&& 0xFF00FF00 = 16777216*(z/16777216 % 256) + 256*(z/256 % 256) := by
  have h2 : (0xFF00FF00 : ℕ) = 65536*65280 + 65280 := by norm_num
  have h1 : z = 65536*(z/65536) + z % 65536 := by omega
  rw [h2]
  conv_lhs => rw [h1]
  rw [and_split16 _ _ _ _ (by omega) (by norm_num)]
  have hsub : ∀ w : ℕ, w &&& 65280 = 256*(w/256 % 256) := by
    intro w
    have h3 : (65280 : ℕ) = 256*255 + 0 := by norm_num
    have h4 : w = 256*(w/256) + w % 256 := by omega
    rw [h3]
    conv_lhs => rw [h4]
    have g := and_split 8 (w/256) 255 (w % 256) 0 (by norm_num; omega) (by norm_num)
    norm_num at g
    rw [g, and_255]
  rw [hsub, hsub]
  omega

/-- Characterization of `&&& 0x00FF0000` by div/mod arithmetic. -/
theorem and_maskb1 (z : ℕ) : z &&& 0x00FF0000 = 65536*(z/65536 % 256) := by
  have h2 : (0x00FF0000 : ℕ) = 65536*255 + 0 := by norm_num
  have h1 : z = 65536*(z/65536) + z % 65536 := by omega
  rw [h2]
  conv_lhs => rw [h1]
  rw [and_split16 _ _ _ _ (by omega) (by norm_num), and_255]
  simp

/-- Characterization of `&&& 0x00FF00FF00FF00FF` by div/mod arithmetic. -/
theorem and_mask64 (z : ℕ) :
    z &&& 0x00FF00FF00FF00FF =
      281474976710656*(z/281474976710656 % 256) + 4294967296*(z/4294967296 % 256)
        + 65536*(z/65536 % 256) + z % 256 := by
  have h2 : (0x00FF00FF00FF00FF : ℕ) = 4294967296*16711935 + 16711935 := by norm_num
  have h1 : z = 4294967296*(z/4294967296) + z % 4294967296 := by omega
  have h3 : (16711935 : ℕ) = 0x00FF00FF := by norm_num
  rw [h2]
  conv_lhs => rw [h1]
  rw [and_split32 _ _ _ _ (by omega) (by norm_num), h3, and_mask16, and_mask16]
  have e1 : z % 4294967296 % 256 = z % 256 := by omega
  have e2 : z % 4294967296 / 65536 % 256 = z / 65536 % 256 := by omega
  have e3 : z / 4294967296 / 65536 % 256 = z / 281474976710656 % 256 := by
    rw [Nat.div_div_eq_div_mul]
  rw [e1, e2, e3]
  omega

set_option maxRecDepth 4096 in
theorem or_255_eq (q : ℕ) (h : q ≤ 255) : q ||| 255 = 255 := by
  have key : ∀ r : Fin 256, (r : ℕ) ||| 255 = 255 := by decide
  have := key ⟨q, by omega⟩
  simpa using this

set_option maxRecDepth 4096 in
theorem xor_255_eq (q : ℕ) (h : q ≤ 255) : q ^^^ 255 = 255 - q := by
  have key : ∀ r : Fin 256, (r : ℕ) ^^^ 255 = 255 - (r : ℕ) := by decide
  have := key ⟨q, by omega⟩
  simpa using this

theorem add32_eq (x y : ℕ) (h : x + y < 4294967296) : add32 x y = x + y := by
  unfold add32 M32
  omega

theorem sub32_eq (x y : ℕ) (hx : x < 4294967296) (hy : y ≤ x) : sub32 x y = x - y := by
  unfold sub32 M32
  omega

theorem sub32_wrap (x y : ℕ) (hx : x < 4294967296) (hy : y < 4294967296) (hxy : x < y) :
    sub32 x y = x + 4294967296 - y := by
  unfold sub32 M32
  omega

theorem mul32_eq (x y : ℕ) (h : x * y < 4294967296) : mul32 x y = x * y := by
  unfold mul32 M32
  omega

theorem shl32_eq (x n : ℕ) (h : x * 2^n < 4294967296) : shl32 x n = x * 2^n := by
  unfold shl32 M32
  rw [Nat.shiftLeft_eq]
  omega

/-! ### Unfolding equations (zeta-reduced bodies of the `let`-style definitions) -/

theorem u32Addus_def (x y : ℕ) :
    u32Addus x y =
      (add32 x y ||| (0x0100 - ((add32 x y >>> 8) &&& 0x00FF))) &&& 0x00FF := rfl

theorem u32Subus_def (x y : ℕ) :
    u32Subus x y = sub32 x y &&& ((sub32 x y >>> 24) ^^^ 0xFF) := rfl

theorem u32MulDiv255_def (x a : ℕ) :
    u32MulDiv255 x a =
      (add32 (add32 (mul32 x a) (mul32 x a >>> 8)) 0x80) >>> 8 := rfl

theorem b32_1x2Saturate_def (d : ℕ) :
    b32_1x2Saturate d =
      (d ||| (BYTE1x2MASK_PLUS_ONE - ((d >>> 8) &&& BYTE1x2MASK))) &&& 0x00FF00FF := rfl

theorem b32_1x2SubusB32_1x2_def (a0 b0 : ℕ) :
    b32_1x2SubusB32_1x2 a0 b0 =
      b32_1x2Saturate (add32 (a0 ^^^ BYTE1x2MASK) b0) ^^^ BYTE1x2MASK := rfl

theorem b32_1x2MulDiv255U_def (a0 u : ℕ) :
    b32_1x2MulDiv255U a0 u =
      ((add32 (add32 (mul32 a0 u) ((mul32 a0 u >>> 8) &&& BYTE1x2MASK)) BYTE1x2HALF)
        >>> 8) &&& BYTE1x2MASK := rfl

theorem b32_2x2MulDiv256U_def (a0 dst1 a1 u : ℕ) :
    b32_2x2MulDiv256U a0 dst1 a1 u = (((mul32 a1 u) >>> 8) &&& BYTE1x2MASK, dst1) := rfl

theorem b32_2x2AddSubB32_2x2_def (a0 b0 c0 dst1 a1 b1 c1 : ℕ) :
    b32_2x2AddSubB32_2x2 a0 b0 c0 dst1 a1 b1 c1 = (sub32 (add32 a1 b1) c1, dst1) := rfl

theorem b32_1x2MinB32_1x2_def (a0 b0 : ℕ) :
    b32_1x2MinB32_1x2 a0 b0 =
      (if a0 &&& 0x000000FF > b0 &&& 0x000000FF then b0 &&& 0x000000FF else a0 &&& 0x000000FF) |||
        (if a0 &&& 0x00FF0000 > b0 &&& 0x00FF0000 then b0 &&& 0x00FF0000 else a0 &&& 0x00FF0000) := rfl

theorem b32_1x2MaxB32_1x2_def (a0 b0 : ℕ) :
    b32_1x2MaxB32_1x2 a0 b0 =
      (if a0 &&& 0x000000FF < b0 &&& 0x000000FF then b0 &&& 0x000000FF else a0 &&& 0x000000FF) |||
        (if a0 &&& 0x00FF0000 < b0 &&& 0x00FF0000 then b0 &&& 0x00FF0000 else a0 &&& 0x00FF0000) := rfl

theorem b32_2x2InterpolateU255_def (a0 b0 c0 d0 a1 b1 c1 d1 : ℕ) :
    b32_2x2InterpolateU255 a0 b0 c0 d0 a1 b1 c1 d1 =
      ((add32 (add32 (add32 (mul32 a0 b0) (mul32 c0 d0))
          ((add32 (mul32 a0 b0) (mul32 c0 d0) >>> 8) &&& 0x00FF00FF)) 0x00800080) &&& BYTE1x2MASK,
       (add32 (add32 (add32 (mul32 a1 b1) (mul32 c1 d1))
          ((add32 (mul32 a1 b1) (mul32 c1 d1) >>> 8) &&& 0x00FF00FF)) 0x00800080) &&& BYTE1x2MASK) := rfl

theorem b32_2x2PremultiplyU_def (a0 a1 u : ℕ) :
    b32_2x2PremultiplyU a0 a1 u =
      (((add32 (add32 (mul32 a0 u) ((mul32 a0 u >>> 8) &&& BYTE1x2MASK)) BYTE1x2HALF)
          >>> 8) &&& BYTE1x2MASK,
       ((add32 (add32 (mul32 (a1 &&& 0xFF) u) (mul32 (a1 &&& 0xFF) u >>> 8)) BYTE1x1HALF)
          >>> 8) ||| shl32 u 16) := rfl

theorem p32AddusP32_def (x y : ℕ) :
    p32AddusP32 x y =
      ((add32 (x &&& 0x00FF00FF) (y &&& 0x00FF00FF) |||
          (0x01000100 -
            ((add32 (x &&& 0x00FF00FF) (y &&& 0x00FF00FF) >>> 8) &&& 0x00FF00FF))) &&& 0x00FF00FF) |||
        shl32
          ((add32 ((x &&& 0xFF00FF00) >>> 8) ((y &&& 0xFF00FF00) >>> 8) |||
            (0x01000100 -
              ((add32 ((x &&& 0xFF00FF00) >>> 8) ((y &&& 0xFF00FF00) >>> 8) >>> 8) &&& 0x00FF00FF))) &&& 0x00FF00FF)
          8 := rfl

theorem p32MulDiv255U_def (x a : ℕ) :
    p32MulDiv255U x a =
      (((add32 (add32 (mul32 (x &&& 0x00FF00FF) a)
          ((mul32 (x &&& 0x00FF00FF) a >>> 8) &&& 0x00FF00FF)) 0x00800080) >>> 8) &&& 0x00FF00FF) |||
        ((add32 (add32 (mul32 ((x &&& 0xFF00FF00) >>> 8) a)
          ((mul32 ((x &&& 0xFF00FF00) >>> 8) a >>> 8) &&& 0x00FF00FF)) 0x00800080) &&& 0xFF00FF00) := rfl

/-! ### Scalar claims -/

/-- C3 (counterexample): `u32Div255` does not compute `round(v/255.0)`:
at `v = 128` it returns `0` while the nearest integer to `128/255` is `1`. -/
theorem c3_round_counterexample :
    u32Div255 128 = 0 ∧ roundNearestDiv255 128 = 1 ∧
      u32Div255 128 ≠ roundNearestDiv255 128 := by
  refine ⟨by decide, by decide, by decide⟩

/-- C3 (amended): for every 16-bit intermediate `v`, `u32Div255 v` computed as
`((v<<8)+(v+256))>>16` equals the truncated quotient `v / 255` for
`v ≤ 65534`, and returns `256` (one below the true quotient `257`) at
`v = 65535`; it is not round-to-nearest. -/
theorem c3_u32Div255_truncating (v : ℕ) (h : v ≤ 65535) :
    u32Div255 v = if v = 65535 then 256 else v / 255 := by
  have h1 : shl32 v 8 = v * 256 := by
    rw [shl32_eq v 8 (by norm_num; omega)]
    norm_num
  have h2 : add32 v 256 = v + 256 := add32_eq _ _ (by omega)
  have h3 : add32 (v * 256) (v + 256) = v * 256 + (v + 256) := add32_eq _ _ (by omega)
  unfold u32Div255
  rw [h1, h2, h3, Nat.shiftRight_eq_div_pow]
  norm_num
  split <;> omega

theorem c3_u32Div255_truncating_witness :
    (510 ≤ 65535 ∧ u32Div255 510 = if 510 = 65535 then 256 else 510 / 255) ∧
      (65535 ≤ 65535 ∧ u32Div255 65535 = if 65535 = 65535 then 256 else 65535 / 255) :=
  ⟨⟨by decide, c3_u32Div255_truncating 510 (by decide)⟩,
   ⟨by decide, c3_u32Div255_truncating 65535 (by decide)⟩⟩

/-- C5: for channel values `x, y ∈ [0,255]`, the branch-free saturating
operations satisfy `u32Addus x y = min (x+y) 255` and
`u32Subus x y = max (x-y) 0` (which over `ℕ` is truncated subtraction). -/
theorem c5_addus_subus (x y : ℕ) (hx : x ≤ 255) (hy : y ≤ 255) :
    u32Addus x y = min (x + y) 255 ∧ u32Subus x y = x - y := by
  constructor
  · rw [u32Addus_def, add32_eq x y (by omega)]
    rcases le_or_lt (x + y) 255 with h1 | h1
    · have hdiv : ((x + y) >>> 8) &&& 0x00FF = 0 := by
        rw [Nat.shiftRight_eq_div_pow, and_255]
        norm_num
        omega
      rw [hdiv]
      norm_num
      rw [Nat.or_comm]
      have h256 : (256:ℕ) = 256*1 := by norm_num
      rw [h256, or_add8 1 (x+y) (by omega), and_255]
      omega
    · have hdiv : ((x + y) >>> 8) &&& 0x00FF = 1 := by
        rw [Nat.shiftRight_eq_div_pow, and_255]
        norm_num
        omega
      rw [hdiv]
      norm_num
      rw [Nat.and_distrib_right, and_255]
      have h255 : (255:ℕ) &&& 255 = 255 := by decide
      rw [h255, or_255_eq ((x+y) % 256) (by omega)]
      omega
  · rw [u32Subus_def]
    rcases le_or_lt y x with h1 | h1
    · rw [sub32_eq x y (by omega) h1]
      have hdiv : (x - y) >>> 24 = 0 := by
        rw [Nat.shiftRight_eq_div_pow]
        norm_num
        omega
      rw [hdiv]
      norm_num
      rw [and_255]
      omega
    · rw [sub32_wrap x y (by omega) (by omega) h1]
      have hdiv : (x + 4294967296 - y) >>> 24 = 255 := by
        rw [Nat.shiftRight_eq_div_pow]
        norm_num
        omega
      rw [hdiv]
      norm_num
      omega

theorem c5_addus_subus_witness :
    (200 ≤ 255 ∧ 100 ≤ 255 ∧
      u32Addus 200 100 = min (200 + 100) 255 ∧ u32Subus 200 100 = 200 - 100) :=
  ⟨by decide, by decide, (c5_addus_subus 200 100 (by decide) (by decide)).1,
    (c5_addus_subus 200 100 (by decide) (by decide)).2⟩

/-- Evaluation of `u32MulDiv255` on in-range inputs, with the 32-bit
wrap-arounds stripped. -/
theorem u32MulDiv255_eval (x a : ℕ) (hx : x ≤ 255) (ha : a ≤ 255) :
    u32MulDiv255 x a = (x * a + x * a / 256 + 128) / 256 := by
  have ht : x * a ≤ 65025 := Nat.mul_le_mul hx ha
  rw [u32MulDiv255_def, mul32_eq x a (by omega), Nat.shiftRight_eq_div_pow,
    add32_eq (x*a) _ (by omega), add32_eq _ 0x80 (by omega),
    Nat.shiftRight_eq_div_pow]

/-- C8: for `x, a ∈ [0,255]`, `u32MulDiv255 x a` is within 1 of the true
rounded quotient `round(x*a/255.0)`. -/
theorem c8_muldiv255_error_bound (x a : ℕ) (hx : x ≤ 255) (ha : a ≤ 255) :
    u32MulDiv255 x a ≤ roundNearestDiv255 (x * a) + 1 ∧
      roundNearestDiv255 (x * a) ≤ u32MulDiv255 x a + 1 := by
  have ht : x * a ≤ 65025 := Nat.mul_le_mul hx ha
  rw [u32MulDiv255_eval x a hx ha]
  unfold roundNearestDiv255
  generalize x * a = t at ht ⊢
  omega

theorem c8_muldiv255_error_bound_witness :
    (37 ≤ 255 ∧ 201 ≤ 255 ∧
      u32MulDiv255 37 201 ≤ roundNearestDiv255 (37 * 201) + 1 ∧
      roundNearestDiv255 (37 * 201) ≤ u32MulDiv255 37 201 + 1) :=
  ⟨by decide, by decide, (c8_muldiv255_error_bound 37 201 (by decide) (by decide)).1,
    (c8_muldiv255_error_bound 37 201 (by decide) (by decide)).2⟩

/-- C9: weight 255 is the identity and weight 0 annihilates for
`u32MulDiv255` on channel values. -/
theorem c9_muldiv255_boundary (x : ℕ) (hx : x ≤ 255) :
    u32MulDiv255 x 255 = x ∧ u32MulDiv255 x 0 = 0 := by
  rw [u32MulDiv255_eval x 255 hx (by norm_num), u32MulDiv255_eval x 0 hx (by norm_num)]
  omega

theorem c9_muldiv255_boundary_witness :
    (114 ≤ 255 ∧ u32MulDiv255 114 255 = 114 ∧ u32MulDiv255 114 0 = 0) :=
  ⟨by decide, (c9_muldiv255_boundary 114 (by decide)).1,
    (c9_muldiv255_boundary 114 (by decide)).2⟩

/-! ### C6: pack/unpack round trip -/

/-- C6: packing the result of unpacking reproduces the tight pixel exactly,
both through the two-word `b32` layer and through the one-word `b64` layer. -/
theorem c6_pack_unpack_roundtrip (p : ℕ) (h : p < 4294967296) :
    b32_2x2Pack0213 (b32_2x2Unpack0213 p).1 (b32_2x2Unpack0213 p).2 = p ∧
      b64_1x4Pack0213 (b64_1x4Unpack0213 p) = p := by
  constructor
  · show (p &&& 0x00FF00FF) ||| shl32 ((p >>> 8) &&& 0x00FF00FF) 8 = p
    have e1 : (p >>> 8) &&& 0x00FF00FF = 65536*(p/16777216 % 256) + p/256 % 256 := by
      rw [Nat.shiftRight_eq_div_pow, and_mask16]
      omega
    rw [and_mask16, e1]
    set c2 := p/65536 % 256 with hc2
    set c0 := p % 256 with hc0
    set c3 := p/16777216 % 256 with hc3
    set c1 := p/256 % 256 with hc1
    rw [shl32_eq _ 8 (by omega)]
    have e2 : (65536*c3 + c1) * 2^8 = 65536*(256*c3) + 256*c1 := by omega
    rw [e2, or_split16 _ _ _ _ (by omega) (by omega),
      Nat.or_comm c2 (256*c3), or_add8 c3 c2 (by omega),
      Nat.or_comm c0 (256*c1), or_add8 c1 c0 (by omega)]
    omega
  · show ((p ||| (p <<< 24)) &&& 0x00FF00FF00FF00FF |||
        (((p ||| (p <<< 24)) &&& 0x00FF00FF00FF00FF) >>> 24)) % 4294967296 = p
    rw [Nat.and_distrib_right]
    have f0 : p &&& 0x00FF00FF00FF00FF = 65536*(p/65536 % 256) + p % 256 := by
      rw [and_mask64]
      omega
    have f1 : (p <<< 24) &&& 0x00FF00FF00FF00FF
        = 4294967296*(65536*(p/16777216 % 256) + p/256 % 256) := by
      rw [Nat.shiftLeft_eq, and_mask64]
      omega
    rw [f0, f1]
    set c2 := p/65536 % 256 with hc2
    set c0 := p % 256 with hc0
    set c3 := p/16777216 % 256 with hc3
    set c1 := p/256 % 256 with hc1
    rw [Nat.or_comm (65536*c2 + c0) _, or_add32 _ _ (by omega)]
    have g2 : (4294967296*(65536*c3 + c1) + (65536*c2 + c0)) >>> 24
        = 65536*(256*c3) + 256*c1 := by
      rw [Nat.shiftRight_eq_div_pow]
      omega
    rw [g2]
    have g3 : 65536*(256*c3) + 256*c1 = 4294967296*0 + (65536*(256*c3) + 256*c1) := by
      omega
    rw [g3, or_split32 _ _ _ _ (by omega) (by omega),
      or_split16 _ _ _ _ (by omega) (by omega),
      Nat.or_comm c2 (256*c3), or_add8 c3 c2 (by omega),
      Nat.or_comm c0 (256*c1), or_add8 c1 c0 (by omega), Nat.or_zero,
      Nat.mul_add_mod]
    clear f0 f1 g2 g3
    omega

theorem c6_pack_unpack_roundtrip_witness :
    ((0xFF804020:ℕ) < 4294967296 ∧
      b32_2x2Pack0213 (b32_2x2Unpack0213 0xFF804020).1 (b32_2x2Unpack0213 0xFF804020).2
        = 0xFF804020 ∧
      b64_1x4Pack0213 (b64_1x4Unpack0213 0xFF804020) = 0xFF804020) :=
  ⟨by decide, (c6_pack_unpack_roundtrip 0xFF804020 (by decide)).1,
    (c6_pack_unpack_roundtrip 0xFF804020 (by decide)).2⟩

/-! ### C7: premultiply keeps the alpha lane exact -/

/-- C7: premultiplying a widened pixel `(a0, a1)` (all lanes in `[0,255]`,
alpha in lane B1 of `a1`) by its own alpha via `b32_2x2PremultiplyA` leaves
the alpha lane of the result exactly equal to the input alpha: the scalar
single-lane rounding path of `dst1` and the dual-lane path agree on the
final alpha for every alpha in `[0,255]`. -/
theorem c7_premultiply_alpha_exact (a0 a1 : ℕ)
    (h0 : lanesClean a0) (h1 : lanesClean a1) :
    b32_1x2GetB1 (b32_2x2PremultiplyA a0 a1).2 = b32_1x2GetB1 a1 := by
  obtain ⟨h1a, h1b⟩ := h1
  show (((add32 (add32 (mul32 (a1 &&& 0xFF) (a1 >>> 16))
      ((mul32 (a1 &&& 0xFF) (a1 >>> 16)) >>> 8)) 0x80) >>> 8) |||
        shl32 (a1 >>> 16) 16) >>> 16 = a1 >>> 16
  have hu : a1 >>> 16 = a1 / 65536 := by
    rw [Nat.shiftRight_eq_div_pow]
  rw [and_255, hu]
  set u := a1 / 65536 with huu
  set g := a1 % 256 with hgg
  have hu255 : u ≤ 255 := by omega
  have hg255 : g ≤ 255 := by omega
  have hgu : g * u ≤ 65025 := Nat.mul_le_mul hg255 hu255
  rw [mul32_eq g u (by omega)]
  set t := g * u with htt
  have e0 : t >>> 8 = t / 256 := by
    rw [Nat.shiftRight_eq_div_pow]
  have e1 : (add32 (add32 t (t >>> 8)) 0x80) >>> 8 = (t + t/256 + 128)/256 := by
    rw [e0, add32_eq t (t/256) (by omega), add32_eq (t + t/256) 0x80 (by omega),
      Nat.shiftRight_eq_div_pow]
  rw [e1]
  set s := (t + t/256 + 128)/256 with hss
  have hs : s ≤ 255 := by omega
  rw [shl32_eq u 16 (by omega)]
  have e2 : u * 2^16 = 65536 * u := by omega
  rw [e2, Nat.or_comm s (65536*u), or_add16 u s (by omega), Nat.shiftRight_eq_div_pow]
  omega

theorem c7_premultiply_alpha_exact_witness :
    (lanesClean 0x00400080 ∧ lanesClean 0x00C70023 ∧
      b32_1x2GetB1 (b32_2x2PremultiplyA 0x00400080 0x00C70023).2
        = b32_1x2GetB1 0x00C70023) :=
  ⟨by decide, by decide,
    c7_premultiply_alpha_exact 0x00400080 0x00C70023 (by decide) (by decide)⟩

/-! ### C1: the 2x forms that fail to be two independent 1x applications -/

/-- C1 (code bug): `b32_2x2AddSubB32_2x2` and `b32_2x2MulDiv256U` do not
apply their 1x form to each word independently.  In both, the second
statement overwrites `dst0` with the second word's result and `dst1` is
never assigned (it keeps the caller's prior value), contradicting the
functions' own `@verbatim` documentation
(`dst0 = a0 + b0 - c0; dst1 = a1 + b1 - c1` and
`dst0 = (a0 * u) / 256; dst1 = (a1 * u) / 256`).
Evaluated here at concrete inputs: with `a0 = 1, b0 = 0, c0 = 0`,
`a1 = 2, b1 = 0, c1 = 0` and prior `dst1 = 7`, the add/sub form returns
`(2, 7)` instead of the documented `(1, 2)`; with `a0 = 3, a1 = 5, u = 256`
and prior `dst1 = 7`, the mul/div form returns `(5, 7)` instead of the
documented `(3, 5)`. -/
theorem c1_2x_forms_code_bug :
    (b32_2x2AddSubB32_2x2 1 0 0 7 2 0 0 = (2, 7) ∧
      b32_2x2AddSubB32_2x2 1 0 0 7 2 0 0 ≠ (1, 2)) ∧
    (b32_2x2MulDiv256U 3 7 5 256 = (5, 7) ∧
      b32_2x2MulDiv256U 3 7 5 256 ≠ (3, 5)) :=
  ⟨⟨by decide, by decide⟩, ⟨by decide, by decide⟩⟩

/-! ### Lane decomposition of the packed operations -/

theorem or_lt_65536 (a b : ℕ) (ha : a < 65536) (hb : b < 65536) : a ||| b < 65536 := by
  have g := Nat.or_lt_two_pow (show a < 2^16 by rw [pow16]; exact ha)
    (show b < 2^16 by rw [pow16]; exact hb)
  rwa [pow16] at g

/-- Shift a two-lane word right by 8 and mask: extracts each lane's bit 8. -/
theorem shr8_and_mask (d0 d1 : ℕ) (h0 : d0 < 65536) (h1 : d1 < 65536) :
    ((65536*d1 + d0) >>> 8) &&& 0x00FF00FF = 65536*(d1/256) + d0/256 := by
  rw [Nat.shiftRight_eq_div_pow, and_mask16]
  omega

/-- One lane of the branch-free saturation: `(d ||| (k - d/256)) &&& 255`
clamps `d ≤ 510` to `min d 255`, for any helper constant `k ≥ 256` that is
a multiple of 256. -/
theorem sat_lane (k d : ℕ) (hk : 256 ≤ k) (hk2 : k % 256 = 0) (hd : d ≤ 510) :
    (d ||| (k - d/256)) &&& 255 = min d 255 := by
  rcases le_or_lt d 255 with h | h
  · have hm : d / 256 = 0 := by omega
    rw [hm, Nat.sub_zero, Nat.and_distrib_right, and_255, and_255]
    have hk0 : k % 256 = 0 := hk2
    rw [hk0, Nat.or_zero]
    omega
  · have hm : d / 256 = 1 := by omega
    rw [hm, Nat.and_distrib_right, and_255, and_255]
    have hk1 : (k - 1) % 256 = 255 := by omega
    rw [hk1, or_255_eq _ (by omega)]
    omega

/-- The two-lane branch-free saturation pattern used by `b32_1x2Saturate`
(constant `0x10000100 = 65536*4096 + 256`) and by `p32AddusP32`
(constant `0x01000100 = 65536*256 + 256`): both clamp each lane of a word
whose lanes are at most 510 to `min _ 255`. -/
theorem sat_core (k1 d0 d1 : ℕ) (hk1 : 256 ≤ k1) (hk2 : k1 % 256 = 0)
    (h0 : d0 ≤ 510) (h1 : d1 ≤ 510) :
    ((65536*d1 + d0) ||| (65536*k1 + 256 - (((65536*d1 + d0) >>> 8) &&& 0x00FF00FF)))
        &&& 0x00FF00FF
      = 65536*(min d1 255) + min d0 255 := by
  rw [shr8_and_mask d0 d1 (by omega) (by omega)]
  have hsub : 65536*k1 + 256 - (65536*(d1/256) + d0/256)
      = 65536*(k1 - d1/256) + (256 - d0/256) := by omega
  rw [hsub, or_split16 _ _ _ _ (by omega) (by omega),
    show (0x00FF00FF:ℕ) = 65536*255 + 255 from by norm_num,
    and_split16 _ _ _ _ (or_lt_65536 _ _ (by omega) (by omega)) (by norm_num),
    sat_lane k1 d1 hk1 hk2 h1, sat_lane 256 d0 (by norm_num) (by norm_num) h0]

/-- The function `b32_1x2Saturate` clamps each lane of a word with lanes at most 510. -/
theorem saturate_lanes (d0 d1 : ℕ) (h0 : d0 ≤ 510) (h1 : d1 ≤ 510) :
    b32_1x2Saturate (65536*d1 + d0) = 65536*(min d1 255) + min d0 255 := by
  show ((65536*d1 + d0) |||
      (0x10000100 - (((65536*d1 + d0) >>> 8) &&& 0x00FF00FF))) &&& 0x00FF00FF = _
  rw [show (0x10000100:ℕ) = 65536*4096 + 256 from by norm_num]
  exact sat_core 4096 d0 d1 (by norm_num) (by norm_num) h0 h1

/-- Per-lane effect of `^^^ 0x00FF00FF` on a clean two-lane word. -/
theorem xor_mask_lanes (x0 x1 : ℕ) (h0 : x0 ≤ 255) (h1 : x1 ≤ 255) :
    (65536*x1 + x0) ^^^ 0x00FF00FF = 65536*(255 - x1) + (255 - x0) := by
  rw [show (0x00FF00FF:ℕ) = 65536*255 + 255 from by norm_num,
    xor_split16 _ _ _ _ (by omega) (by norm_num), xor_255_eq x1 h1, xor_255_eq x0 h0]

/-- Anything masked with `0x00FF00FF` satisfies the headroom invariant. -/
theorem lanesClean_and_mask (z : ℕ) : lanesClean (z &&& 0x00FF00FF) := by
  rw [and_mask16]
  exact ⟨by omega, by omega⟩

theorem addus_lanes (x0 x1 y0 y1 : ℕ) (hx0 : x0 ≤ 255) (hx1 : x1 ≤ 255)
    (hy0 : y0 ≤ 255) (hy1 : y1 ≤ 255) :
    b32_1x2AddusB32_1x2 (65536*x1 + x0) (65536*y1 + y0)
      = 65536*(min (x1+y1) 255) + min (x0+y0) 255 := by
  unfold b32_1x2AddusB32_1x2
  rw [add32_eq _ _ (by omega)]
  have e : 65536*x1 + x0 + (65536*y1 + y0) = 65536*(x1+y1) + (x0+y0) := by ring
  rw [e, saturate_lanes _ _ (by omega) (by omega)]

theorem subus_lanes (x0 x1 y0 y1 : ℕ) (hx0 : x0 ≤ 255) (hx1 : x1 ≤ 255)
    (hy0 : y0 ≤ 255) (hy1 : y1 ≤ 255) :
    b32_1x2SubusB32_1x2 (65536*x1 + x0) (65536*y1 + y0)
      = 65536*(x1 - y1) + (x0 - y0) := by
  rw [b32_1x2SubusB32_1x2_def]
  simp only [BYTE1x2MASK]
  rw [xor_mask_lanes x0 x1 hx0 hx1, add32_eq _ _ (by omega)]
  have e : 65536*(255-x1) + (255-x0) + (65536*y1 + y0)
      = 65536*((255-x1)+y1) + ((255-x0)+y0) := by omega
  rw [e, saturate_lanes _ _ (by omega) (by omega),
    xor_mask_lanes _ _ (by omega) (by omega)]
  omega

/-- Bound for the scalar rounding step of `mulDiv255`. -/
theorem md_le (t : ℕ) (h : t ≤ 65025) : (t + t/256 + 128)/256 ≤ 255 := by omega

/-- The `mulDiv255` rounding pattern followed by `>> 8` and the mask,
computed per lane. -/
theorem md255_lo (t0 t1 : ℕ) (h0 : t0 ≤ 65025) (h1 : t1 ≤ 65025) :
    ((add32 (add32 (65536*t1 + t0) (((65536*t1 + t0) >>> 8) &&& 0x00FF00FF)) 0x00800080)
        >>> 8) &&& 0x00FF00FF
      = 65536*((t1 + t1/256 + 128)/256) + ((t0 + t0/256 + 128)/256) := by
  rw [shr8_and_mask t0 t1 (by omega) (by omega),
    add32_eq (65536*t1 + t0) _ (by omega), add32_eq _ 0x00800080 (by omega)]
  have e : 65536*t1 + t0 + (65536*(t1/256) + t0/256) + 0x00800080
      = 65536*(t1 + t1/256 + 128) + (t0 + t0/256 + 128) := by omega
  rw [e, shr8_and_mask _ _ (by omega) (by omega)]

/-- The `mulDiv255` rounding pattern followed by the high mask `0xFF00FF00`
(used by `p32MulDiv255U` for the odd channels), computed per lane. -/
theorem md255_hi (t0 t1 : ℕ) (h0 : t0 ≤ 65025) (h1 : t1 ≤ 65025) :
    (add32 (add32 (65536*t1 + t0) (((65536*t1 + t0) >>> 8) &&& 0x00FF00FF)) 0x00800080)
        &&& 0xFF00FF00
      = 16777216*((t1 + t1/256 + 128)/256) + 256*((t0 + t0/256 + 128)/256) := by
  rw [shr8_and_mask t0 t1 (by omega) (by omega),
    add32_eq (65536*t1 + t0) _ (by omega), add32_eq _ 0x00800080 (by omega)]
  have e : 65536*t1 + t0 + (65536*(t1/256) + t0/256) + 0x00800080
      = 65536*(t1 + t1/256 + 128) + (t0 + t0/256 + 128) := by omega
  rw [e, and_maskhi]
  have hL0 : t0 + t0/256 + 128 < 65536 := by omega
  have hL1 : t1 + t1/256 + 128 < 65536 := by omega
  set L0 := t0 + t0/256 + 128 with eL0
  set L1 := t1 + t1/256 + 128 with eL1
  have d1 : (65536*L1 + L0)/16777216 = L1/256 := by omega
  have d2 : (65536*L1 + L0)/256 = 256*L1 + L0/256 := by omega
  rw [d1, d2]
  have d3 : (256*L1 + L0/256) % 256 = L0/256 := by omega
  have d4 : L1/256 % 256 = L1/256 := by omega
  rw [d3, d4]

theorem muldiv255U_lanes (x0 x1 u : ℕ) (hx0 : x0 ≤ 255) (hx1 : x1 ≤ 255) (hu : u ≤ 255) :
    b32_1x2MulDiv255U (65536*x1 + x0) u
      = 65536*((x1*u + x1*u/256 + 128)/256) + ((x0*u + x0*u/256 + 128)/256) := by
  rw [b32_1x2MulDiv255U_def]
  simp only [BYTE1x2MASK, BYTE1x2HALF]
  have hb : (65536*x1 + x0) * u ≤ 16711935 * 255 := Nat.mul_le_mul (by omega) hu
  have hm : mul32 (65536*x1 + x0) u = 65536*(x1*u) + x0*u := by
    rw [mul32_eq _ _ (by omega)]
    ring
  have ht0 : x0*u ≤ 65025 := Nat.mul_le_mul hx0 hu
  have ht1 : x1*u ≤ 65025 := Nat.mul_le_mul hx1 hu
  rw [hm, md255_lo _ _ ht0 ht1]

theorem muldiv256U_lanes (x0 x1 u : ℕ) (hx0 : x0 ≤ 255) (hx1 : x1 ≤ 255) (hu : u ≤ 256) :
    b32_1x2MulDiv256U (65536*x1 + x0) u = 65536*(x1*u/256) + x0*u/256 := by
  unfold b32_1x2MulDiv256U
  simp only [BYTE1x2MASK]
  have hb : (65536*x1 + x0) * u ≤ 16711935 * 256 := Nat.mul_le_mul (by omega) hu
  have hm : mul32 (65536*x1 + x0) u = 65536*(x1*u) + x0*u := by
    rw [mul32_eq _ _ (by omega)]
    ring
  have ht0 : x0*u ≤ 65280 := Nat.mul_le_mul hx0 hu
  have ht1 : x1*u ≤ 65280 := Nat.mul_le_mul hx1 hu
  rw [hm, shr8_and_mask _ _ (by omega) (by omega)]

theorem minB_lanes (x0 x1 y0 y1 : ℕ) (hx0 : x0 ≤ 255) (hx1 : x1 ≤ 255)
    (hy0 : y0 ≤ 255) (hy1 : y1 ≤ 255) :
    b32_1x2MinB32_1x2 (65536*x1 + x0) (65536*y1 + y0) = 65536*(min x1 y1) + min x0 y0 := by
  rw [b32_1x2MinB32_1x2_def]
  have e1 : (65536*x1 + x0) &&& 0x000000FF = x0 := by rw [and_255]; omega
  have e2 : (65536*y1 + y0) &&& 0x000000FF = y0 := by rw [and_255]; omega
  have e3 : (65536*x1 + x0) &&& 0x00FF0000 = 65536*x1 := by rw [and_maskb1]; omega
  have e4 : (65536*y1 + y0) &&& 0x00FF0000 = 65536*y1 := by rw [and_maskb1]; omega
  rw [e1, e2, e3, e4]
  split_ifs <;> (rw [Nat.or_comm, or_add16 _ _ (by omega)]; omega)

theorem maxB_lanes (x0 x1 y0 y1 : ℕ) (hx0 : x0 ≤ 255) (hx1 : x1 ≤ 255)
    (hy0 : y0 ≤ 255) (hy1 : y1 ≤ 255) :
    b32_1x2MaxB32_1x2 (65536*x1 + x0) (65536*y1 + y0) = 65536*(max x1 y1) + max x0 y0 := by
  rw [b32_1x2MaxB32_1x2_def]
  have e1 : (65536*x1 + x0) &&& 0x000000FF = x0 := by rw [and_255]; omega
  have e2 : (65536*y1 + y0) &&& 0x000000FF = y0 := by rw [and_255]; omega
  have e3 : (65536*x1 + x0) &&& 0x00FF0000 = 65536*x1 := by rw [and_maskb1]; omega
  have e4 : (65536*y1 + y0) &&& 0x00FF0000 = 65536*y1 := by rw [and_maskb1]; omega
  rw [e1, e2, e3, e4]
  split_ifs <;> (rw [Nat.or_comm, or_add16 _ _ (by omega)]; omega)

theorem negate_lanes (x0 x1 : ℕ) (h0 : x0 ≤ 255) (h1 : x1 ≤ 255) :
    b32_1x2Negate (65536*x1 + x0) = 65536*(255 - x1) + (255 - x0) := by
  unfold b32_1x2Negate
  exact xor_mask_lanes x0 x1 h0 h1

/-- The raw pack pattern `a0 | (a1 << 8)` on two clean two-lane words. -/
theorem pack_raw (p0 p1 q0 q1 : ℕ) (hp0 : p0 ≤ 255) (hp1 : p1 ≤ 255)
    (hq0 : q0 ≤ 255) (hq1 : q1 ≤ 255) :
    (65536*p1 + p0) ||| shl32 (65536*q1 + q0) 8 = 16777216*q1 + 65536*p1 + 256*q0 + p0 := by
  rw [shl32_eq _ 8 (by omega)]
  have e : (65536*q1 + q0) * 2^8 = 65536*(256*q1) + 256*q0 := by omega
  rw [e, or_split16 _ _ _ _ (by omega) (by omega),
    Nat.or_comm p1 (256*q1), or_add8 q1 p1 (by omega),
    Nat.or_comm p0 (256*q0), or_add8 q0 p0 (by omega)]
  omega

/-! ### C2 and C10: the headroom invariant -/

theorem lanesClean_decomp (x : ℕ) (h : lanesClean x) :
    ∃ x0 x1, x = 65536*x1 + x0 ∧ x0 ≤ 255 ∧ x1 ≤ 255 := by
  obtain ⟨h1, h2⟩ := h
  exact ⟨x % 65536, x / 65536, by omega, by omega, by omega⟩

theorem lanesClean_of_lanes (a b : ℕ) (ha : a ≤ 255) (hb : b ≤ 255) :
    lanesClean (65536*b + a) := ⟨by omega, by omega⟩

/-- C2 (counterexample): the raw, non-saturating add of section 4.3 does not
restore the headroom invariant: adding the lane-clean word `0x00FF00FF` to
itself gives `0x01FE01FE`, whose 16-bit lanes have their upper 8 bits
nonzero.  So the invariant does not hold after *any* packed-channel
arithmetic op, only after the saturating/dividing ones. -/
theorem c2_raw_add_counterexample :
    lanesClean 0x00FF00FF ∧
      b32_1x2AddB32_1x2 0x00FF00FF 0x00FF00FF = 0x01FE01FE ∧
      ¬ lanesClean (b32_1x2AddB32_1x2 0x00FF00FF 0x00FF00FF) :=
  ⟨by decide, by decide, by decide⟩

/-- C2 (amended): for the packed-channel operations that saturate, divide, or
mask (saturate, addSaturating, subSaturating, mulDiv255 by scalar, mulDiv256
by scalar, min, max, negate, interpolate), lane-clean inputs and scalars in
their documented ranges produce outputs in which every 16-bit lane's upper
8 bits are again zero.  The raw add/sub/addSub/mul/shift forms are excluded:
they do not restore the invariant (see the counterexample). -/
theorem c2_headroom_invariant_amended (x y u v w1 w2 : ℕ)
    (hx : lanesClean x) (hy : lanesClean y) (hu : u ≤ 255) (hv : v ≤ 256)
    (hw1 : w1 ≤ 255) (hw2 : w2 ≤ 255) :
    lanesClean (b32_1x2Saturate x) ∧
    lanesClean (b32_1x2AddusB32_1x2 x y) ∧
    lanesClean (b32_1x2SubusB32_1x2 x y) ∧
    lanesClean (b32_1x2MulDiv255U x u) ∧
    lanesClean (b32_1x2MulDiv256U x v) ∧
    lanesClean (b32_1x2MinB32_1x2 x y) ∧
    lanesClean (b32_1x2MaxB32_1x2 x y) ∧
    lanesClean (b32_1x2Negate x) ∧
    lanesClean (b32_2x2InterpolateU255 x w1 y w2 x w1 y w2).1 ∧
    lanesClean (b32_2x2InterpolateU255 x w1 y w2 x w1 y w2).2 := by
  obtain ⟨x0, x1, hxe, hx0, hx1⟩ := lanesClean_decomp x hx
  obtain ⟨y0, y1, hye, hy0, hy1⟩ := lanesClean_decomp y hy
  subst hxe
  subst hye
  refine ⟨?_, ?_, ?_, ?_, ?_, ?_, ?_, ?_, ?_, ?_⟩
  · rw [saturate_lanes _ _ (by omega) (by omega)]
    exact lanesClean_of_lanes _ _ (by omega) (by omega)
  · rw [addus_lanes x0 x1 y0 y1 hx0 hx1 hy0 hy1]
    exact lanesClean_of_lanes _ _ (by omega) (by omega)
  · rw [subus_lanes x0 x1 y0 y1 hx0 hx1 hy0 hy1]
    exact lanesClean_of_lanes _ _ (by omega) (by omega)
  · rw [muldiv255U_lanes x0 x1 u hx0 hx1 hu]
    exact lanesClean_of_lanes _ _ (md_le _ (Nat.mul_le_mul hx0 hu))
      (md_le _ (Nat.mul_le_mul hx1 hu))
  · rw [muldiv256U_lanes x0 x1 v hx0 hx1 hv]
    have h0 : x0*v ≤ 65280 := Nat.mul_le_mul hx0 hv
    have h1 : x1*v ≤ 65280 := Nat.mul_le_mul hx1 hv
    exact lanesClean_of_lanes _ _ (by omega) (by omega)
  · rw [minB_lanes x0 x1 y0 y1 hx0 hx1 hy0 hy1]
    exact lanesClean_of_lanes _ _ (by omega) (by omega)
  · rw [maxB_lanes x0 x1 y0 y1 hx0 hx1 hy0 hy1]
    exact lanesClean_of_lanes _ _ (by omega) (by omega)
  · rw [negate_lanes x0 x1 hx0 hx1]
    exact lanesClean_of_lanes _ _ (by omega) (by omega)
  · exact lanesClean_and_mask _
  · exact lanesClean_and_mask _

theorem c2_headroom_invariant_amended_witness :
    (lanesClean 0x00110022 ∧ lanesClean 0x00330044 ∧ (128:ℕ) ≤ 255 ∧ (256:ℕ) ≤ 256 ∧
      (255:ℕ) ≤ 255 ∧ (0:ℕ) ≤ 255) ∧
    (lanesClean (b32_1x2Saturate 0x00110022) ∧
     lanesClean (b32_1x2AddusB32_1x2 0x00110022 0x00330044) ∧
     lanesClean (b32_1x2SubusB32_1x2 0x00110022 0x00330044) ∧
     lanesClean (b32_1x2MulDiv255U 0x00110022 128) ∧
     lanesClean (b32_1x2MulDiv256U 0x00110022 256) ∧
     lanesClean (b32_1x2MinB32_1x2 0x00110022 0x00330044) ∧
     lanesClean (b32_1x2MaxB32_1x2 0x00110022 0x00330044) ∧
     lanesClean (b32_1x2Negate 0x00110022) ∧
     lanesClean (b32_2x2InterpolateU255 0x00110022 255 0x00330044 0 0x00110022 255 0x00330044 0).1 ∧
     lanesClean (b32_2x2InterpolateU255 0x00110022 255 0x00330044 0 0x00110022 255 0x00330044 0).2) :=
  ⟨⟨by decide, by decide, by decide, by decide, by decide, by decide⟩,
    c2_headroom_invariant_amended 0x00110022 0x00330044 128 256 255 0
      (by decide) (by decide) (by decide) (by decide) (by decide) (by decide)⟩

/-- C10: the saturating and rounding-division 1x packed operations restore
the headroom invariant: on lane-clean inputs (and `u ∈ [0,255]`) the outputs
of `b32_1x2AddusB32_1x2`, `b32_1x2SubusB32_1x2` and `b32_1x2MulDiv255U`
have both 16-bit lanes in `[0,255]` with upper 8 bits zero. -/
theorem c10_saturating_ops_restore_headroom (x y u : ℕ)
    (hx : lanesClean x) (hy : lanesClean y) (hu : u ≤ 255) :
    lanesClean (b32_1x2AddusB32_1x2 x y) ∧
    lanesClean (b32_1x2SubusB32_1x2 x y) ∧
    lanesClean (b32_1x2MulDiv255U x u) := by
  obtain ⟨x0, x1, hxe, hx0, hx1⟩ := lanesClean_decomp x hx
  obtain ⟨y0, y1, hye, hy0, hy1⟩ := lanesClean_decomp y hy
  subst hxe
  subst hye
  refine ⟨?_, ?_, ?_⟩
  · rw [addus_lanes x0 x1 y0 y1 hx0 hx1 hy0 hy1]
    exact lanesClean_of_lanes _ _ (by omega) (by omega)
  · rw [subus_lanes x0 x1 y0 y1 hx0 hx1 hy0 hy1]
    exact lanesClean_of_lanes _ _ (by omega) (by omega)
  · rw [muldiv255U_lanes x0 x1 u hx0 hx1 hu]
    exact lanesClean_of_lanes _ _ (md_le _ (Nat.mul_le_mul hx0 hu))
      (md_le _ (Nat.mul_le_mul hx1 hu))

theorem c10_saturating_ops_restore_headroom_witness :
    (lanesClean 0x00FF00FE ∧ lanesClean 0x00010003 ∧ (200:ℕ) ≤ 255) ∧
    (lanesClean (b32_1x2AddusB32_1x2 0x00FF00FE 0x00010003) ∧
     lanesClean (b32_1x2SubusB32_1x2 0x00FF00FE 0x00010003) ∧
     lanesClean (b32_1x2MulDiv255U 0x00FF00FE 200)) :=
  ⟨⟨by decide, by decide, by decide⟩,
    c10_saturating_ops_restore_headroom 0x00FF00FE 0x00010003 200
      (by decide) (by decide) (by decide)⟩

/-! ### C4: tight-pixel operators refine unpack → packed op → pack -/

theorem b32_2x2Pack0213_def (a0 a1 : ℕ) :
    b32_2x2Pack0213 a0 a1 = a0 ||| shl32 a1 8 := rfl

theorem b32_2x2Unpack0213_fst (a0 : ℕ) :
    (b32_2x2Unpack0213 a0).1 = a0 &&& 0x00FF00FF := rfl

theorem b32_2x2Unpack0213_snd (a0 : ℕ) :
    (b32_2x2Unpack0213 a0).2 = (a0 >>> 8) &&& 0x00FF00FF := rfl

theorem b32_2x2AddusB32_2x2_fst (a0 b0 a1 b1 : ℕ) :
    (b32_2x2AddusB32_2x2 a0 b0 a1 b1).1 = b32_1x2Saturate (add32 a0 b0) := rfl

theorem b32_2x2AddusB32_2x2_snd (a0 b0 a1 b1 : ℕ) :
    (b32_2x2AddusB32_2x2 a0 b0 a1 b1).2 = b32_1x2Saturate (add32 a1 b1) := rfl

theorem b32_2x2MulDiv255U_fst (a0 a1 u : ℕ) :
    (b32_2x2MulDiv255U a0 a1 u).1 = b32_1x2MulDiv255U a0 u := rfl

theorem b32_2x2MulDiv255U_snd (a0 a1 u : ℕ) :
    (b32_2x2MulDiv255U a0 a1 u).2 = b32_1x2MulDiv255U a1 u := rfl

theorem add_or8 (a b : ℕ) (h : a < 256) : a ||| 256*b = a + 256*b := by
  rw [Nat.or_comm, or_add8 b a h]
  omega

/-- C4: each tight-pixel composite operator equals
unpack → packed-channel op → pack: `p32AddusP32 x y` is
`b32_2x2Pack0213` of `b32_2x2AddusB32_2x2` applied to the
`b32_2x2Unpack0213` halves of `x` and `y`, and `p32MulDiv255U x a`
(for `a ∈ [0,255]`) is the pack of `b32_2x2MulDiv255U` of the unpacked
halves of `x`. -/
theorem c4_tight_ops_refine_unpack_op_pack (x y a : ℕ)
    (hx : x < 4294967296) (hy : y < 4294967296) (ha : a ≤ 255) :
    p32AddusP32 x y
      = b32_2x2Pack0213
          (b32_2x2AddusB32_2x2 (b32_2x2Unpack0213 x).1 (b32_2x2Unpack0213 y).1
            (b32_2x2Unpack0213 x).2 (b32_2x2Unpack0213 y).2).1
          (b32_2x2AddusB32_2x2 (b32_2x2Unpack0213 x).1 (b32_2x2Unpack0213 y).1
            (b32_2x2Unpack0213 x).2 (b32_2x2Unpack0213 y).2).2 ∧
    p32MulDiv255U x a
      = b32_2x2Pack0213
          (b32_2x2MulDiv255U (b32_2x2Unpack0213 x).1 (b32_2x2Unpack0213 x).2 a).1
          (b32_2x2MulDiv255U (b32_2x2Unpack0213 x).1 (b32_2x2Unpack0213 x).2 a).2 := by
  have hx02 : x &&& 0x00FF00FF = 65536*(x/65536 % 256) + x % 256 := and_mask16 x
  have hy02 : y &&& 0x00FF00FF = 65536*(y/65536 % 256) + y % 256 := and_mask16 y
  have hx13 : (x >>> 8) &&& 0x00FF00FF = 65536*(x/16777216 % 256) + x/256 % 256 := by
    rw [Nat.shiftRight_eq_div_pow, and_mask16]
    omega
  have hy13 : (y >>> 8) &&& 0x00FF00FF = 65536*(y/16777216 % 256) + y/256 % 256 := by
    rw [Nat.shiftRight_eq_div_pow, and_mask16]
    omega
  have hx13' : (x &&& 0xFF00FF00) >>> 8 = 65536*(x/16777216 % 256) + x/256 % 256 := by
    rw [and_maskhi, Nat.shiftRight_eq_div_pow]
    omega
  have hy13' : (y &&& 0xFF00FF00) >>> 8 = 65536*(y/16777216 % 256) + y/256 % 256 := by
    rw [and_maskhi, Nat.shiftRight_eq_div_pow]
    omega
  set c0 := x % 256 with hc0e
  set c1 := x/256 % 256 with hc1e
  set c2 := x/65536 % 256 with hc2e
  set c3 := x/16777216 % 256 with hc3e
  set d0 := y % 256 with hd0e
  set d1 := y/256 % 256 with hd1e
  set d2 := y/65536 % 256 with hd2e
  set d3 := y/16777216 % 256 with hd3e
  have hc0 : c0 ≤ 255 := by omega
  have hc1 : c1 ≤ 255 := by omega
  have hc2 : c2 ≤ 255 := by omega
  have hc3 : c3 ≤ 255 := by omega
  have hd0 : d0 ≤ 255 := by omega
  have hd1 : d1 ≤ 255 := by omega
  have hd2 : d2 ≤ 255 := by omega
  have hd3 : d3 ≤ 255 := by omega
  constructor
  · rw [p32AddusP32_def, b32_2x2Pack0213_def,
      b32_2x2AddusB32_2x2_fst, b32_2x2AddusB32_2x2_snd,
      b32_2x2Unpack0213_fst x, b32_2x2Unpack0213_fst y,
      b32_2x2Unpack0213_snd x, b32_2x2Unpack0213_snd y,
      hx02, hy02, hx13, hy13, hx13', hy13',
      add32_eq _ _ (by omega), add32_eq _ _ (by omega)]
    have e0 : 65536*c2 + c0 + (65536*d2 + d0) = 65536*(c2+d2) + (c0+d0) := by omega
    have e1 : 65536*c3 + c1 + (65536*d3 + d1) = 65536*(c3+d3) + (c1+d1) := by omega
    rw [e0, e1, show (0x01000100:ℕ) = 65536*256 + 256 from by norm_num,
      sat_core 256 (c0+d0) (c2+d2) (by norm_num) (by norm_num) (by omega) (by omega),
      sat_core 256 (c1+d1) (c3+d3) (by norm_num) (by norm_num) (by omega) (by omega),
      saturate_lanes _ _ (by omega) (by omega), saturate_lanes _ _ (by omega) (by omega)]
  · have hm0 : mul32 (65536*c2 + c0) a = 65536*(c2*a) + c0*a := by
      have hb : (65536*c2 + c0) * a ≤ 16711935*255 := Nat.mul_le_mul (by omega) ha
      rw [mul32_eq _ _ (by omega)]
      ring
    have hm1 : mul32 (65536*c3 + c1) a = 65536*(c3*a) + c1*a := by
      have hb : (65536*c3 + c1) * a ≤ 16711935*255 := Nat.mul_le_mul (by omega) ha
      rw [mul32_eq _ _ (by omega)]
      ring
    have ha0 : c0*a ≤ 65025 := Nat.mul_le_mul hc0 ha
    have ha1 : c1*a ≤ 65025 := Nat.mul_le_mul hc1 ha
    have ha2 : c2*a ≤ 65025 := Nat.mul_le_mul hc2 ha
    have ha3 : c3*a ≤ 65025 := Nat.mul_le_mul hc3 ha
    rw [p32MulDiv255U_def, b32_2x2Pack0213_def,
      b32_2x2MulDiv255U_fst, b32_2x2MulDiv255U_snd,
      b32_2x2Unpack0213_fst x, b32_2x2Unpack0213_snd x,
      hx02, hx13, hx13', hm0, hm1,
      md255_lo (c0*a) (c2*a) ha0 ha2, md255_hi (c1*a) (c3*a) ha1 ha3,
      muldiv255U_lanes c0 c2 a hc0 hc2 ha, muldiv255U_lanes c1 c3 a hc1 hc3 ha]
    have e2 : 16777216*((c3*a + c3*a/256 + 128)/256) + 256*((c1*a + c1*a/256 + 128)/256)
        = 65536*(256*((c3*a + c3*a/256 + 128)/256)) + 256*((c1*a + c1*a/256 + 128)/256) := by
      ring
    rw [e2, or_split16 _ _ _ _ (by have := md_le _ ha0; omega) (by have := md_le _ ha1; omega),
      add_or8 _ _ (by have := md_le _ ha2; omega),
      add_or8 _ _ (by have := md_le _ ha0; omega),
      pack_raw _ _ _ _ (md_le _ ha0) (md_le _ ha2) (md_le _ ha1) (md_le _ ha3)]
    omega

theorem c4_tight_ops_refine_unpack_op_pack_witness :
    ((0xFF804020:ℕ) < 4294967296 ∧ (0x00FFFFFF:ℕ) < 4294967296 ∧ (128:ℕ) ≤ 255) ∧
    (p32AddusP32 0xFF804020 0x00FFFFFF
      = b32_2x2Pack0213
          (b32_2x2AddusB32_2x2 (b32_2x2Unpack0213 0xFF804020).1 (b32_2x2Unpack0213 0x00FFFFFF).1
            (b32_2x2Unpack0213 0xFF804020).2 (b32_2x2Unpack0213 0x00FFFFFF).2).1
          (b32_2x2AddusB32_2x2 (b32_2x2Unpack0213 0xFF804020).1 (b32_2x2Unpack0213 0x00FFFFFF).1
            (b32_2x2Unpack0213 0xFF804020).2 (b32_2x2Unpack0213 0x00FFFFFF).2).2 ∧
    p32MulDiv255U 0xFF804020 128
      = b32_2x2Pack0213
          (b32_2x2MulDiv255U (b32_2x2Unpack0213 0xFF804020).1 (b32_2x2Unpack0213 0xFF804020).2 128).1
          (b32_2x2MulDiv255U (b32_2x2Unpack0213 0xFF804020).1 (b32_2x2Unpack0213 0xFF804020).2 128).2) :=
  ⟨⟨by decide, by decide, by decide⟩,
    c4_tight_ops_refine_unpack_op_pack 0xFF804020 0x00FFFFFF 128
      (by decide) (by decide) (by decide)⟩
